import Mathlib

/-!
Verification of the login/renewal core of the CF (PCF) auth plugin,
shallowly embedded from `path_login.go`.  Pure Go helpers become Lean
functions; external collaborators (signature matcher, configuration and
role stores, directory client, clock, time parsing, UUID generation)
become explicit parameters, mirroring how the Go code consumes them.
Machine times are modelled as `Int` nanoseconds, exactly as Go durations
(`time.Minute = 60e9 ns`, `time.Second = 1e9 ns`).
-/

namespace PCFAuth

/-- Decidable equality on `Except`, so that concrete runs of the embedded
operations can be checked by evaluation. -/
instance {ε α : Type} [DecidableEq ε] [DecidableEq α] : DecidableEq (Except ε α) := fun x y =>
  match x, y with
  | Except.error e, Except.error f =>
    if h : e = f then isTrue (by rw [h]) else isFalse (fun hc => by cases hc; exact h rfl)
  | Except.error _, Except.ok _ => isFalse (fun hc => by cases hc)
  | Except.ok _, Except.error _ => isFalse (fun hc => by cases hc)
  | Except.ok a, Except.ok b =>
    if h : a = b then isTrue (by rw [h]) else isFalse (fun hc => by cases hc; exact h rfl)

/-- An IPv4 address as four octets; models the value of a `net.IP`
holding a parsed dotted-quad address. -/
structure IPv4 where
  a : Nat
  b : Nat
  c : Nat
  d : Nat
deriving DecidableEq

/-- Splitting a character list on a separator, accumulating the current
field in reverse; models the external `strings.Split` on a one-character
separator. -/
def splitCharAux (c : Char) : List Char → List Char → List (List Char)
  | [], acc => [acc.reverse]
  | x :: xs, acc =>
    if x = c then acc.reverse :: splitCharAux c xs []
    else splitCharAux c xs (x :: acc)

/-- Modelled from the spec: the external `strings.Split` on a
one-character separator (never returns an empty list). -/
def splitOnChar (c : Char) (s : String) : List String :=
  (splitCharAux c s.toList []).map (fun l => String.mk l)

/-- The numeric value of a decimal digit, if the character is one. -/
def digitVal (c : Char) : Option Nat :=
  if '0' ≤ c ∧ c ≤ '9' then some (c.toNat - '0'.toNat) else none

/-- Accumulating decimal evaluation of a character list. -/
def decimalValAux : List Char → Nat → Option Nat
  | [], acc => some acc
  | c :: cs, acc =>
    match digitVal c with
    | some d => decimalValAux cs (acc * 10 + d)
    | none => none

/-- Modelled from the spec: one octet of a dotted-quad address, as accepted
by the external `net.ParseIP` (decimal, at most 3 digits, value at most 255,
no leading zero). -/
def parseOctet (s : String) : Option Nat :=
  match s.toList with
  | [] => none
  | cs =>
    match decimalValAux cs 0 with
    | some n =>
      if n ≤ 255 ∧ cs.length ≤ 3 ∧ (cs.length = 1 ∨ cs.headD ' ' ≠ '0') then some n else none
    | none => none

/-- Modelled from the spec: the external `net.ParseIP` on dotted-quad
IPv4 text; `none` models a `nil` result. -/
def parseIP (s : String) : Option IPv4 :=
  match splitOnChar '.' s with
  | [p1, p2, p3, p4] =>
    match parseOctet p1, parseOctet p2, parseOctet p3, parseOctet p4 with
    | some a, some b, some c, some d => some ⟨a, b, c, d⟩
    | _, _, _, _ => none
  | _ => none

/-- Textual form of an optional IP, models `net.IP.String` (a nil IP
prints as `<nil>`). -/
def ipString (ip : Option IPv4) : String :=
  match ip with
  | some v => toString v.a ++ "." ++ toString v.b ++ "." ++ toString v.c ++ "." ++ toString v.d
  | none => "<nil>"

/-- Translation of `matchesIPAddress` (path_login.go): the remote address is
split on "/" to drop any trailing subnet mask, the left-hand part is parsed,
and the result is compared with the certificate IP for exact equality
(the semantics of `net.IP.Equal`, with `none` standing for nil). -/
def matchesIPAddress (remoteAddr : String) (certIP : Option IPv4) : Bool :=
  let parts := splitOnChar '/' remoteAddr
  let reqIPAddr := parseIP (parts.headD "")
  certIP == reqIPAddr

/-- Translation of `meetsBoundConstraints` (path_login.go): empty constraint
list passes everything; otherwise membership by exact string equality. -/
def meetsBoundConstraints (certValue : String) (constraints : List String) : Bool :=
  if constraints.isEmpty then
    true
  else
    constraints.any (fun p => p == certValue)

/-- A CIDR block, base address plus mask bit count. -/
structure CIDRBlock where
  base : IPv4
  bits : Nat
deriving DecidableEq

/-- Numeric value of an IPv4 address. -/
def ipValue (ip : IPv4) : Nat :=
  ((ip.a * 256 + ip.b) * 256 + ip.c) * 256 + ip.d

/-- Modelled from the spec: containment of an observed remote address
(with any trailing mask dropped) in one CIDR block, as performed by the
external `cidrutil` helper. -/
def CIDRBlock.containsAddr (cb : CIDRBlock) (remoteAddr : String) : Bool :=
  match parseIP ((splitOnChar '/' remoteAddr).headD "") with
  | some ip => ipValue ip / 2 ^ (32 - cb.bits) == ipValue cb.base / 2 ^ (32 - cb.bits)
  | none => false

/-- Modelled from the spec: the external `cidrutil.RemoteAddrIsOk` used at
the CIDR step of `validate`; an empty bound list passes, otherwise the
address must fall within at least one block. -/
def remoteAddrIsOk (remoteAddr : String) (boundCIDRs : List CIDRBlock) : Bool :=
  if boundCIDRs.isEmpty then
    true
  else
    boundCIDRs.any (fun cb => cb.containsAddr remoteAddr)

/-- Go-style rendering of a string slice, as produced by a %s format verb. -/
def goStringList (xs : List String) : String :=
  "[" ++ String.intercalate " " xs ++ "]"

/-- Rendering of one CIDR block. -/
def CIDRBlock.str (cb : CIDRBlock) : String :=
  ipString (some cb.base) ++ "/" ++ toString cb.bits

/-- Go-style rendering of a CIDR list, as produced by a %s format verb. -/
def goCIDRList (cs : List CIDRBlock) : String :=
  "[" ++ String.intercalate " " (cs.map CIDRBlock.str) ++ "]"

/-- Nanoseconds per second (`time.Second`). -/
def nsPerSecond : Int := 1000000000

/-- Nanoseconds per minute (`time.Minute`). -/
def nsPerMinute : Int := 60 * nsPerSecond

/-- Translation of the anti-replay window of `attemptLogin`
(path_login.go lines 110-120): the signing time must not be before
`timeReceived - 5 minutes` nor after `timeReceived + 30 seconds`;
`time.Time.Before` and `time.Time.After` are strict comparisons. -/
def windowCheck (timeReceived signingTime : Int) (signingTimeRaw : String) : Except String Unit :=
  let fiveMinutesAgo := timeReceived + (-5) * nsPerMinute
  let thirtySecondsFromNow := timeReceived + 30 * nsPerSecond
  if signingTime < fiveMinutesAgo then
    Except.error ("request is too old; signed at " ++ toString signingTime ++
      " but received request at " ++ toString timeReceived ++
      "; raw signing time is " ++ signingTimeRaw)
  else if signingTime > thirtySecondsFromNow then
    Except.error ("request is too far in the future; signed at " ++ toString signingTime ++
      " but received request at " ++ toString timeReceived ++
      "; raw signing time is " ++ signingTimeRaw)
  else
    Except.ok ()

/-- Translation of `parseTime` (path_login.go): the two accepted literal
formats are modelled as the two external parsing functions given by the
environment, tried in order. -/
def parseTime (parseISO parseBash : String → Option Int) (signingTime : String) : Except String Int :=
  match parseISO signingTime with
  | some t => Except.ok t
  | none =>
    match parseBash signingTime with
    | some t => Except.ok t
    | none => Except.error ("couldn\x27t parse " ++ signingTime)

/-- Identity fields read from a verified client certificate
(`models.PCFCertificate`); the IP may be nil. -/
structure PCFCertificate where
  instanceID : String
  orgID : String
  spaceID : String
  appID : String
  ipAddress : Option IPv4
deriving DecidableEq

/-- A role definition (`models.RoleEntry`), the fields used on the
login and renewal paths. -/
structure RoleEntry where
  boundInstanceIDs : List String
  boundAppIDs : List String
  boundOrgIDs : List String
  boundSpaceIDs : List String
  boundCIDRs : List CIDRBlock
  policies : List String
  disableIPMatching : Bool
  ttl : Int
  maxTTL : Int
  period : Int
deriving DecidableEq

/-- Plugin configuration (`models.Configuration`), the fields consumed by
the login path for reaching the CF API. -/
structure Configuration where
  pcfAPIAddr : String
  pcfUsername : String
  pcfPassword : String
deriving DecidableEq

/-- Directory record for a service instance lookup. -/
structure ServiceInstance where
  guid : String
  spaceGuid : String
deriving DecidableEq

/-- Directory record for an app lookup. -/
structure AppRecord where
  guid : String
  spaceGuid : String
  instances : Int
deriving DecidableEq

/-- Directory record for an org lookup. -/
structure OrgRecord where
  guid : String
deriving DecidableEq

/-- Directory record for a space lookup. -/
structure SpaceRecord where
  guid : String
  organizationGuid : String
deriving DecidableEq

/-- The external CF directory client (`cfclient.Client`), as the four
lookups used by `validate`. -/
structure DirClient where
  getServiceInstanceByGuid : String → Except String ServiceInstance
  appByGuid : String → Except String AppRecord
  getOrgByGuid : String → Except String OrgRecord
  getSpaceByGuid : String → Except String SpaceRecord

/-- Labels for the six role-constraint checks of `validate`, in source
order. -/
inductive ConstraintCheck where
  | ipMatch
  | instanceId
  | appId
  | orgId
  | spaceId
  | cidr
deriving DecidableEq

/-- Labels for the four directory lookups of `validate`, in source order. -/
inductive DirLookup where
  | serviceInstance
  | app
  | org
  | space
deriving DecidableEq

/-- Translation of the role-constraint half of `validate`
(path_login.go lines 238-257), instrumented with the list of checks that
control flow actually reaches: each early `return` stops both the result
and the trace, exactly as in the source. -/
def constraintChecksT (role : RoleEntry) (pcfCert : PCFCertificate)
    (reqConnRemoteAddr : String) : Except String Unit × List ConstraintCheck :=
  let cidrStep : Except String Unit × List ConstraintCheck :=
    if !remoteAddrIsOk reqConnRemoteAddr role.boundCIDRs then
      (Except.error ("remote address " ++ reqConnRemoteAddr ++
        " doesn\x27t match role constraints of " ++ goCIDRList role.boundCIDRs), [ConstraintCheck.cidr])
    else
      (Except.ok (), [ConstraintCheck.cidr])
  let spaceStep : Except String Unit × List ConstraintCheck :=
    if !meetsBoundConstraints pcfCert.spaceID role.boundSpaceIDs then
      (Except.error ("space ID " ++ pcfCert.spaceID ++
        " doesn\x27t match role constraints of " ++ goStringList role.boundSpaceIDs), [ConstraintCheck.spaceId])
    else
      (cidrStep.1, ConstraintCheck.spaceId :: cidrStep.2)
  let orgStep : Except String Unit × List ConstraintCheck :=
    if !meetsBoundConstraints pcfCert.orgID role.boundOrgIDs then
      (Except.error ("org ID " ++ pcfCert.orgID ++
        " doesn\x27t match role constraints of " ++ goStringList role.boundOrgIDs), [ConstraintCheck.orgId])
    else
      (spaceStep.1, ConstraintCheck.orgId :: spaceStep.2)
  let appStep : Except String Unit × List ConstraintCheck :=
    if !meetsBoundConstraints pcfCert.appID role.boundAppIDs then
      (Except.error ("app ID " ++ pcfCert.appID ++
        " doesn\x27t match role constraints of " ++ goStringList role.boundAppIDs), [ConstraintCheck.appId])
    else
      (orgStep.1, ConstraintCheck.appId :: orgStep.2)
  let instanceStep : Except String Unit × List ConstraintCheck :=
    if !meetsBoundConstraints pcfCert.instanceID role.boundInstanceIDs then
      (Except.error ("instance ID " ++ pcfCert.instanceID ++
        " doesn\x27t match role constraints of " ++ goStringList role.boundInstanceIDs), [ConstraintCheck.instanceId])
    else
      (appStep.1, ConstraintCheck.instanceId :: appStep.2)
  if !role.disableIPMatching then
    if !matchesIPAddress reqConnRemoteAddr pcfCert.ipAddress then
      (Except.error "no matching IP address", [ConstraintCheck.ipMatch])
    else
      (instanceStep.1, ConstraintCheck.ipMatch :: instanceStep.2)
  else
    instanceStep

/-- Translation of the directory half of `validate`
(path_login.go lines 259-316), instrumented with the list of directory
lookups actually performed: client creation, then service instance, app,
org and space lookups, each failure (lookup error or field mismatch)
returning immediately, exactly as in the source. -/
def directoryChecksT (newClient : Configuration → Except String DirClient)
    (config : Configuration) (pcfCert : PCFCertificate) :
    Except String Unit × List DirLookup :=
  match newClient config with
  | Except.error e => (Except.error e, [])
  | Except.ok client =>
    match client.getServiceInstanceByGuid pcfCert.instanceID with
    | Except.error e => (Except.error e, [DirLookup.serviceInstance])
    | Except.ok serviceInstance =>
      if serviceInstance.guid ≠ pcfCert.instanceID then
        (Except.error ("cert instance ID " ++ pcfCert.instanceID ++
          " doesn\x27t match API\x27s expected one of " ++ serviceInstance.guid),
         [DirLookup.serviceInstance])
      else if serviceInstance.spaceGuid ≠ pcfCert.spaceID then
        (Except.error ("cert space ID " ++ pcfCert.spaceID ++
          " doesn\x27t match API\x27s expected one of " ++ serviceInstance.spaceGuid),
         [DirLookup.serviceInstance])
      else
        match client.appByGuid pcfCert.appID with
        | Except.error e => (Except.error e, [DirLookup.serviceInstance, DirLookup.app])
        | Except.ok app =>
          if app.guid ≠ pcfCert.appID then
            (Except.error ("cert app ID " ++ pcfCert.appID ++
              " doesn\x27t match API\x27s expected one of " ++ app.guid),
             [DirLookup.serviceInstance, DirLookup.app])
          else if app.spaceGuid ≠ pcfCert.spaceID then
            (Except.error ("cert space ID " ++ pcfCert.spaceID ++
              " doesn\x27t match API\x27s expected one of " ++ app.spaceGuid),
             [DirLookup.serviceInstance, DirLookup.app])
          else if app.instances ≤ 0 then
            (Except.error "app doesn\x27t have any live instances",
             [DirLookup.serviceInstance, DirLookup.app])
          else
            match client.getOrgByGuid pcfCert.orgID with
            | Except.error e =>
              (Except.error e, [DirLookup.serviceInstance, DirLookup.app, DirLookup.org])
            | Except.ok org =>
              if org.guid ≠ pcfCert.orgID then
                (Except.error ("cert org ID " ++ pcfCert.orgID ++
                  " doesn\x27t match API\x27s expected one of " ++ org.guid),
                 [DirLookup.serviceInstance, DirLookup.app, DirLookup.org])
              else
                match client.getSpaceByGuid pcfCert.spaceID with
                | Except.error e =>
                  (Except.error e,
                   [DirLookup.serviceInstance, DirLookup.app, DirLookup.org, DirLookup.space])
                | Except.ok sp =>
                  if sp.guid ≠ pcfCert.spaceID then
                    (Except.error ("cert space ID " ++ pcfCert.spaceID ++
                      " doesn\x27t match API\x27s expected one of " ++ sp.guid),
                     [DirLookup.serviceInstance, DirLookup.app, DirLookup.org, DirLookup.space])
                  else if sp.organizationGuid ≠ pcfCert.orgID then
                    (Except.error ("cert org ID " ++ pcfCert.orgID ++
                      " doesn\x27t match API\x27s expected one of " ++ sp.organizationGuid),
                     [DirLookup.serviceInstance, DirLookup.app, DirLookup.org, DirLookup.space])
                  else
                    (Except.ok (),
                     [DirLookup.serviceInstance, DirLookup.app, DirLookup.org, DirLookup.space])

/-- Translation of `validate` (path_login.go lines 237-317): the six
role-constraint checks followed, only when they all pass, by the directory
reconciliation; the result is the projection of the instrumented halves. -/
def validate (newClient : Configuration → Except String DirClient)
    (config : Configuration) (role : RoleEntry) (pcfCert : PCFCertificate)
    (reqConnRemoteAddr : String) : Except String Unit :=
  match constraintChecksT role pcfCert reqConnRemoteAddr with
  | (Except.error e, _) => Except.error e
  | (Except.ok _, _) => (directoryChecksT newClient config pcfCert).1

/-- The credential payload (`logical.Auth`) built on success and carried
into renewal. -/
structure Auth where
  period : Int
  policies : List String
  metadata : List (String × String)
  displayName : String
  renewable : Bool
  ttl : Int
  maxTTL : Int
  aliasName : String
  boundCIDRs : List CIDRBlock
deriving DecidableEq

/-- Go map access with the zero-value default: `m["k"]` is `""` when the
key is absent. -/
def getMeta (m : List (String × String)) (k : String) : String :=
  match m.find? (fun kv => kv.1 == k) with
  | some kv => kv.2
  | none => ""

/-- The four request fields of the login operation. -/
structure FieldData where
  role : String
  certificate : String
  signing_time : String
  signature : String
deriving DecidableEq

/-- The tuple handed to the external signature matcher
(`signatures.SignatureData`). -/
structure SignatureData where
  signingTime : Int
  role : String
  certificate : String
deriving DecidableEq

/-- An opaque handle for an x509 certificate returned by the external
signature matcher. -/
structure X509Cert where
  id : Nat
deriving DecidableEq

/-- An opaque handle for CA verification options
(`config.VerifyOpts()`). -/
structure VerifyOpts where
  id : Nat
deriving DecidableEq

/-- The external collaborators consumed by the login path, made explicit:
the clock reading taken at the top of `attemptLogin`, the two time-format
parsers, the signature matcher, the configuration and role stores, the
chain-verification primitives, the certificate-to-identity extractor and
the directory client factory. -/
structure LoginEnv where
  timeReceived : Int
  parseISO : String → Option Int
  parseBash : String → Option Int
  signaturesVerify : String → SignatureData → Except String X509Cert
  configStore : Except String (Option Configuration)
  verifyOpts : Configuration → Except String VerifyOpts
  certVerify : X509Cert → VerifyOpts → Except String Unit
  newPCFCertificateFromx509 : X509Cert → Except String PCFCertificate
  getRole : String → Except String (Option RoleEntry)
  newClient : Configuration → Except String DirClient

/-- Translation of `attemptLogin` (path_login.go lines 82-195): required
fields, time window, signature match, CA chain verification, identity
extraction, role lookup, `validate`, then assembly of the credential. -/
def attemptLogin (env : LoginEnv) (data : FieldData) (remoteAddr : String) :
    Except String Auth :=
  let timeReceived := env.timeReceived
  let roleName := data.role
  if roleName = "" then Except.error "\x27role-name\x27 is required" else
  let signature := data.signature
  if signature = "" then Except.error "\x27signature\x27 is required" else
  let clientCertificate := data.certificate
  if clientCertificate = "" then Except.error "\x27certificate\x27 is required" else
  let signingTimeRaw := data.signing_time
  if signingTimeRaw = "" then Except.error "\x27signing_time\x27 is required" else
  match parseTime env.parseISO env.parseBash signingTimeRaw with
  | Except.error e => Except.error e
  | Except.ok signingTime =>
    match windowCheck timeReceived signingTime signingTimeRaw with
    | Except.error e => Except.error e
    | Except.ok _ =>
      match env.signaturesVerify signature
          { signingTime := signingTime, role := roleName, certificate := clientCertificate } with
      | Except.error e => Except.error e
      | Except.ok matchingCert =>
        match env.configStore with
        | Except.error e => Except.error e
        | Except.ok none => Except.error "no CA is configured for verifying client certificates"
        | Except.ok (some config) =>
          match env.verifyOpts config with
          | Except.error e => Except.error e
          | Except.ok opts =>
            match env.certVerify matchingCert opts with
            | Except.error e => Except.error e
            | Except.ok _ =>
              match env.newPCFCertificateFromx509 matchingCert with
              | Except.error e => Except.error e
              | Except.ok pcfCert =>
                match env.getRole roleName with
                | Except.error e => Except.error e
                | Except.ok none => Except.error "no matching role"
                | Except.ok (some role) =>
                  match validate env.newClient config role pcfCert remoteAddr with
                  | Except.error e => Except.error e
                  | Except.ok _ =>
                    Except.ok
                      { period := role.period
                        policies := role.policies
                        metadata :=
                          [("role", roleName),
                           ("instance_id", pcfCert.instanceID),
                           ("org_id", pcfCert.orgID),
                           ("app_id", pcfCert.appID),
                           ("space_id", pcfCert.spaceID),
                           ("ip_address", ipString pcfCert.ipAddress)]
                        displayName := pcfCert.instanceID
                        renewable := true
                        ttl := role.ttl
                        maxTTL := role.maxTTL
                        aliasName := pcfCert.appID
                        boundCIDRs := role.boundCIDRs }

/-- What reaches the caller of the login operation: either the credential
or an error-response body. -/
inductive RespBody where
  | success (auth : Auth)
  | errorResponse (msg : String)
deriving DecidableEq

/-- The full observable outcome of the login handler: the response body,
the Go-level returned error, and the server-side log line, if any. -/
structure LoginHandlerResult where
  resp : RespBody
  goErr : Option String
  logLine : Option String
deriving DecidableEq

/-- Translation of `operationLoginUpdate` (path_login.go lines 67-80):
any failure of `attemptLogin` is logged in full with a correlation
identifier, while the caller receives only the redacted message; the
error from the UUID generator is discarded (the generator yields the
empty string when it fails), and the handler itself never returns a
Go-level error. -/
def operationLoginUpdate (env : LoginEnv) (data : FieldData) (remoteAddr : String)
    (uuidRes : Except String String) : LoginHandlerResult :=
  match attemptLogin env data remoteAddr with
  | Except.error e =>
    let u := match uuidRes with
      | Except.ok s => s
      | Except.error _ => ""
    { resp := RespBody.errorResponse ("authentication failed, failure ID " ++ u)
      goErr := none
      logLine := some ("authentication failed, failure ID " ++ u ++ ": " ++ e) }
  | Except.ok auth =>
    { resp := RespBody.success auth
      goErr := none
      logLine := none }

/-- The external collaborators consumed by the renewal path: the
configuration and role stores, the metadata-to-certificate reconstructor
(`models.NewPCFCertificate`, which returns a certificate together with a
possible error), and the directory client factory. -/
structure RenewEnv where
  configStore : Except String (Option Configuration)
  getRole : String → Except String (Option RoleEntry)
  newPCFCertificate : String → String → String → String → String → PCFCertificate × Option String
  newClient : Configuration → Except String DirClient

/-- Translation of `pathLoginRenew` (path_login.go lines 197-235): config
and role are re-read, the identity is reconstructed from persisted
metadata (the reconstruction error is shadowed by the next statement and
never checked, so only the certificate component is used), `validate` is
re-run, and on success the lease fields are refreshed from the current
role while the rest of the credential is carried over unchanged. -/
def pathLoginRenew (env : RenewEnv) (auth : Auth) (remoteAddr : String) :
    Except String Auth :=
  match env.configStore with
  | Except.error e => Except.error e
  | Except.ok none => Except.error "no configuration is available for reaching the PCF API"
  | Except.ok (some config) =>
    let roleName := getMeta auth.metadata "role"
    if roleName = "" then Except.error "unable to retrieve role from metadata during renewal" else
    match env.getRole roleName with
    | Except.error e => Except.error e
    | Except.ok none => Except.error "no matching role"
    | Except.ok (some role) =>
      let pcfCert :=
        (env.newPCFCertificate
          (getMeta auth.metadata "instance_id")
          (getMeta auth.metadata "org_id")
          (getMeta auth.metadata "space_id")
          (getMeta auth.metadata "app_id")
          (getMeta auth.metadata "ip_address")).1
      match validate env.newClient config role pcfCert remoteAddr with
      | Except.error e => Except.error e
      | Except.ok _ =>
        Except.ok { auth with ttl := role.ttl, maxTTL := role.maxTTL, period := role.period }

/-- Written from the spec for comparison with the source translation:
the first failure in a list of independent check results, in order; all
checks passing yields success. -/
def firstFailure : List (Except String Unit) → Except String Unit
  | [] => Except.ok ()
  | Except.error e :: _ => Except.error e
  | Except.ok _ :: rest => firstFailure rest

/-- Written from the spec for comparison with the source translation:
the six role-constraint checks of 4.4, each computed independently of the
others, listed in the order named by the spec (IP match, instance ID,
app ID, org ID, space ID, CIDR containment). -/
def constraintCheckList (role : RoleEntry) (pcfCert : PCFCertificate)
    (reqConnRemoteAddr : String) : List (Except String Unit) :=
  [ if role.disableIPMatching then Except.ok ()
    else if matchesIPAddress reqConnRemoteAddr pcfCert.ipAddress then Except.ok ()
    else Except.error "no matching IP address",
    if meetsBoundConstraints pcfCert.instanceID role.boundInstanceIDs then Except.ok ()
    else Except.error ("instance ID " ++ pcfCert.instanceID ++
      " doesn\x27t match role constraints of " ++ goStringList role.boundInstanceIDs),
    if meetsBoundConstraints pcfCert.appID role.boundAppIDs then Except.ok ()
    else Except.error ("app ID " ++ pcfCert.appID ++
      " doesn\x27t match role constraints of " ++ goStringList role.boundAppIDs),
    if meetsBoundConstraints pcfCert.orgID role.boundOrgIDs then Except.ok ()
    else Except.error ("org ID " ++ pcfCert.orgID ++
      " doesn\x27t match role constraints of " ++ goStringList role.boundOrgIDs),
    if meetsBoundConstraints pcfCert.spaceID role.boundSpaceIDs then Except.ok ()
    else Except.error ("space ID " ++ pcfCert.spaceID ++
      " doesn\x27t match role constraints of " ++ goStringList role.boundSpaceIDs),
    if remoteAddrIsOk reqConnRemoteAddr role.boundCIDRs then Except.ok ()
    else Except.error ("remote address " ++ reqConnRemoteAddr ++
      " doesn\x27t match role constraints of " ++ goCIDRList role.boundCIDRs) ]

/-- The service-instance stage of the directory reconciliation succeeds:
lookup by instance ID returns a record whose GUID equals the claimed
instance ID and whose space GUID equals the claimed space ID. -/
def siStageOk (client : DirClient) (pcfCert : PCFCertificate) : Bool :=
  match client.getServiceInstanceByGuid pcfCert.instanceID with
  | Except.error _ => false
  | Except.ok si => si.guid == pcfCert.instanceID && si.spaceGuid == pcfCert.spaceID

/-- The app stage succeeds: lookup by app ID returns a record whose GUID
equals the claimed app ID, whose space GUID equals the claimed space ID,
and whose live instance count is strictly positive. -/
def appStageOk (client : DirClient) (pcfCert : PCFCertificate) : Bool :=
  match client.appByGuid pcfCert.appID with
  | Except.error _ => false
  | Except.ok app =>
    app.guid == pcfCert.appID && app.spaceGuid == pcfCert.spaceID && decide (0 < app.instances)

/-- The org stage succeeds: lookup by org ID returns a record whose GUID
equals the claimed org ID. -/
def orgStageOk (client : DirClient) (pcfCert : PCFCertificate) : Bool :=
  match client.getOrgByGuid pcfCert.orgID with
  | Except.error _ => false
  | Except.ok org => org.guid == pcfCert.orgID

/-- The space stage succeeds: lookup by space ID returns a record whose
GUID equals the claimed space ID and whose organization GUID equals the
claimed org ID. -/
def spaceStageOk (client : DirClient) (pcfCert : PCFCertificate) : Bool :=
  match client.getSpaceByGuid pcfCert.spaceID with
  | Except.error _ => false
  | Except.ok sp => sp.guid == pcfCert.spaceID && sp.organizationGuid == pcfCert.orgID

/-- A sample verified identity used by concrete witnesses. -/
def sampleCert : PCFCertificate :=
  { instanceID := "instance-1"
    orgID := "org-1"
    spaceID := "space-1"
    appID := "app-1"
    ipAddress := some ⟨10, 0, 0, 5⟩ }

/-- A sample role with no bound constraints, used by concrete witnesses. -/
def sampleRole : RoleEntry :=
  { boundInstanceIDs := []
    boundAppIDs := []
    boundOrgIDs := []
    boundSpaceIDs := []
    boundCIDRs := []
    policies := ["default"]
    disableIPMatching := false
    ttl := 999
    maxTTL := 2000
    period := 7
    }

/-- A sample configuration used by concrete witnesses. -/
def sampleConfig : Configuration :=
  { pcfAPIAddr := "https://api.example.com", pcfUsername := "user", pcfPassword := "pw" }

/-- A sample directory client agreeing with `sampleCert`, used by
concrete witnesses. -/
def sampleClient : DirClient :=
  { getServiceInstanceByGuid := fun g =>
      if g == "instance-1" then Except.ok { guid := "instance-1", spaceGuid := "space-1" }
      else Except.error "service instance not found"
    appByGuid := fun g =>
      if g == "app-1" then Except.ok { guid := "app-1", spaceGuid := "space-1", instances := 2 }
      else Except.error "app not found"
    getOrgByGuid := fun g =>
      if g == "org-1" then Except.ok { guid := "org-1" }
      else Except.error "org not found"
    getSpaceByGuid := fun g =>
      if g == "space-1" then Except.ok { guid := "space-1", organizationGuid := "org-1" }
      else Except.error "space not found" }

/-- A sample login environment in which every external collaborator
succeeds, used by concrete witnesses. -/
def sampleEnv : LoginEnv :=
  { timeReceived := 0
    parseISO := fun s => if s == "2019-01-01T00:00:00Z" then some 0 else none
    parseBash := fun s => if s == "stale-time" then some (-1000000000000) else none
    signaturesVerify := fun _ _ => Except.ok ⟨1⟩
    configStore := Except.ok (some sampleConfig)
    verifyOpts := fun _ => Except.ok ⟨1⟩
    certVerify := fun _ _ => Except.ok ()
    newPCFCertificateFromx509 := fun _ => Except.ok sampleCert
    getRole := fun r => if r == "test-role" then Except.ok (some sampleRole) else Except.ok none
    newClient := fun _ => Except.ok sampleClient }

/-- Sample login request fields carrying a stale signing time, used by
concrete witnesses. -/
def staleData : FieldData :=
  { role := "test-role"
    certificate := "PEM"
    signing_time := "stale-time"
    signature := "sig" }

/-- A sample renewal environment in which every lookup succeeds and the
metadata reconstructor reports an error that the code discards, used by
concrete witnesses. -/
def sampleRenewEnv : RenewEnv :=
  { configStore := Except.ok (some sampleConfig)
    getRole := fun r => if r == "test-role" then Except.ok (some sampleRole) else Except.ok none
    newPCFCertificate := fun i o s a _ =>
      ({ instanceID := i, orgID := o, spaceID := s, appID := a, ipAddress := some ⟨10, 0, 0, 5⟩ },
       some "could not parse the IP address in the metadata")
    newClient := fun _ => Except.ok sampleClient }

/-- A sample credential as persisted at issuance, with lease values that
differ from the current `sampleRole`, used by concrete witnesses. -/
def sampleAuth : Auth :=
  { period := 1
    policies := ["default"]
    metadata :=
      [("role", "test-role"),
       ("instance_id", "instance-1"),
       ("org_id", "org-1"),
       ("app_id", "app-1"),
       ("space_id", "space-1"),
       ("ip_address", "10.0.0.5")]
    displayName := "instance-1"
    renewable := true
    ttl := 5
    maxTTL := 10
    aliasName := "app-1"
    boundCIDRs := [] }

/-- Splitting a literal factor off the front of a string concatenation. -/
theorem append_split_lit (p q pq x : String) (h : p ++ q = pq) : pq ++ x = p ++ (q ++ x) := by
  rw [← h, String.append_assoc]

/-- C1: for every login request whose signing time parses to t, the
time-window check passes exactly when
timeReceived - 5 minutes ≤ t ≤ timeReceived + 30 seconds (both boundaries
inclusive); for t strictly below the lower bound the login attempt fails
with the distinct "request is too old" reason, for t strictly above the
upper bound with the distinct "request is too far in the future" reason,
each reason carrying the raw signing-time input. -/
theorem c1_time_window_gate (env : LoginEnv) (data : FieldData)
    (remoteAddr : String) (t : Int)
    (hrole : data.role ≠ "") (hsig : data.signature ≠ "")
    (hcert : data.certificate ≠ "") (hst : data.signing_time ≠ "")
    (hp : parseTime env.parseISO env.parseBash data.signing_time = Except.ok t) :
    (windowCheck env.timeReceived t data.signing_time = Except.ok () ↔
      env.timeReceived - 5 * nsPerMinute ≤ t ∧ t ≤ env.timeReceived + 30 * nsPerSecond)
    ∧ (t < env.timeReceived - 5 * nsPerMinute →
        ∃ mid, attemptLogin env data remoteAddr =
          Except.error ("request is too old" ++ (mid ++ data.signing_time)))
    ∧ (env.timeReceived + 30 * nsPerSecond < t →
        ∃ mid, attemptLogin env data remoteAddr =
          Except.error ("request is too far in the future" ++ (mid ++ data.signing_time)))
    ∧ windowCheck 0 (-1000000000000) "x" ≠ windowCheck 0 1000000000000 "x" := by
  refine ⟨?_, ?_, ?_, by decide⟩
  · simp only [windowCheck, nsPerMinute, nsPerSecond]
    split_ifs with h1 h2
    · simp
      omega
    · simp
      omega
    · simp
      omega
  · intro ht
    have hc : t < env.timeReceived + (-5) * nsPerMinute := by
      unfold nsPerMinute nsPerSecond at *
      omega
    have hw : windowCheck env.timeReceived t data.signing_time =
        Except.error ("request is too old; signed at " ++ toString t ++
          " but received request at " ++ toString env.timeReceived ++
          "; raw signing time is " ++ data.signing_time) := by
      unfold windowCheck
      rw [if_pos hc]
    refine ⟨"; signed at " ++ toString t ++ " but received request at " ++
      toString env.timeReceived ++ "; raw signing time is ", ?_⟩
    simp only [attemptLogin, hp, hw, hrole, hsig, hcert, hst, if_neg]
    refine congrArg Except.error ?_
    simp only [String.append_assoc]
    exact append_split_lit "request is too old" "; signed at " _ _ (by decide)
  · intro ht
    have hc1 : ¬ t < env.timeReceived + (-5) * nsPerMinute := by
      unfold nsPerMinute nsPerSecond at *
      omega
    have hc2 : t > env.timeReceived + 30 * nsPerSecond := by
      unfold nsPerMinute nsPerSecond at *
      omega
    have hw : windowCheck env.timeReceived t data.signing_time =
        Except.error ("request is too far in the future; signed at " ++ toString t ++
          " but received request at " ++ toString env.timeReceived ++
          "; raw signing time is " ++ data.signing_time) := by
      unfold windowCheck
      rw [if_neg hc1, if_pos hc2]
    refine ⟨"; signed at " ++ toString t ++ " but received request at " ++
      toString env.timeReceived ++ "; raw signing time is ", ?_⟩
    simp only [attemptLogin, hp, hw, hrole, hsig, hcert, hst, if_neg]
    refine congrArg Except.error ?_
    simp only [String.append_assoc]
    exact append_split_lit "request is too far in the future" "; signed at " _ _ (by decide)

/-- Witness for C1: a concrete login request whose signing time is
1000 seconds in the past is rejected as too old, the reason ending in the
raw signing-time input. -/
theorem c1_time_window_gate_witness :
    ∃ mid, attemptLogin sampleEnv staleData "10.0.0.5" =
      Except.error ("request is too old" ++ (mid ++ "stale-time")) := by
  have h := c1_time_window_gate sampleEnv staleData "10.0.0.5" (-1000000000000)
    (by decide) (by decide) (by decide) (by decide) (by decide)
  exact h.2.1 (by decide)

/-- C7: the bound-constraint membership check accepts every value against
an empty constraint set, and against a non-empty set S it accepts v
exactly when v is an element of S under exact string equality. -/
theorem c7_meets_bound_constraints (v : String) (S : List String) :
    (S = [] → meetsBoundConstraints v S = true)
    ∧ (S ≠ [] → (meetsBoundConstraints v S = true ↔ v ∈ S)) := by
  constructor
  · intro h
    simp [meetsBoundConstraints, h]
  · intro h
    have hne : ¬ S.isEmpty := by
      simpa [List.isEmpty_iff] using h
    simp only [meetsBoundConstraints, hne, if_neg, List.any_eq_true, Bool.not_eq_true]
    constructor
    · rintro ⟨x, hx, he⟩
      rw [beq_iff_eq] at he
      rw [← he]
      exact hx
    · intro hv
      exact ⟨v, hv, by rw [beq_iff_eq]⟩

/-- Witness for C7: the empty set accepts an arbitrary value, and a
two-element set accepts exactly its members. -/
theorem c7_meets_bound_constraints_witness :
    meetsBoundConstraints "any-value" [] = true
    ∧ (meetsBoundConstraints "app-123" ["app-123", "app-456"] = true ↔
        "app-123" ∈ ["app-123", "app-456"]) :=
  ⟨(c7_meets_bound_constraints "any-value" []).1 rfl,
   (c7_meets_bound_constraints "app-123" ["app-123", "app-456"]).2 (by decide)⟩

/-- C8: the IP-match check strips any trailing "/mask" suffix and then
compares by exact equality only: 10.0.0.5/32 matches the certificate IP
10.0.0.5, while 10.0.0.6/32 — and even 10.0.0.6/24, which contains
10.0.0.5 as a subnet — do not; moreover a given observed address can
match at most one certificate IP, so no subnet-containment matching
occurs. -/
theorem c8_matches_ip_exact :
    matchesIPAddress "10.0.0.5/32" (some ⟨10, 0, 0, 5⟩) = true
    ∧ matchesIPAddress "10.0.0.6/32" (some ⟨10, 0, 0, 5⟩) = false
    ∧ matchesIPAddress "10.0.0.6/24" (some ⟨10, 0, 0, 5⟩) = false
    ∧ ∀ (remoteAddr : String) (ip1 ip2 : IPv4),
        matchesIPAddress remoteAddr (some ip1) = true →
        matchesIPAddress remoteAddr (some ip2) = true → ip1 = ip2 := by
  refine ⟨by decide, by decide, by decide, ?_⟩
  intro addr ip1 ip2 h1 h2
  simp only [matchesIPAddress, beq_iff_eq] at h1 h2
  have : some ip1 = some ip2 := by rw [h1, h2]
  exact Option.some_injective _ this

/-- Witness for C8: applying the exact-match uniqueness at the concrete
observed address 10.0.0.5. -/
theorem c8_matches_ip_exact_witness : (⟨10, 0, 0, 5⟩ : IPv4) = ⟨10, 0, 0, 5⟩ :=
  c8_matches_ip_exact.2.2.2 "10.0.0.5" ⟨10, 0, 0, 5⟩ ⟨10, 0, 0, 5⟩ (by decide) (by decide)

/-- C4: the role-constraint matcher is a pure function (hence
deterministic) whose result equals the first failure of the six checks
computed independently in the fixed order IP match (skipped when
disableIPMatching is set), instance-ID, app-ID, org-ID, space-ID, CIDR
containment — so the first failing check aborts the rest and its failure
is returned — and the checks actually reached always form a sublist of
that fixed order. -/
theorem c4_constraint_order (role : RoleEntry) (pcfCert : PCFCertificate) (addr : String) :
    (constraintChecksT role pcfCert addr).1 =
      firstFailure (constraintCheckList role pcfCert addr)
    ∧ List.Sublist (constraintChecksT role pcfCert addr).2
        [ConstraintCheck.ipMatch, ConstraintCheck.instanceId, ConstraintCheck.appId,
         ConstraintCheck.orgId, ConstraintCheck.spaceId, ConstraintCheck.cidr] := by
  simp only [constraintChecksT, constraintCheckList]
  cases hd : role.disableIPMatching <;>
    cases hip : matchesIPAddress addr pcfCert.ipAddress <;>
    cases h1 : meetsBoundConstraints pcfCert.instanceID role.boundInstanceIDs <;>
    cases h2 : meetsBoundConstraints pcfCert.appID role.boundAppIDs <;>
    cases h3 : meetsBoundConstraints pcfCert.orgID role.boundOrgIDs <;>
    cases h4 : meetsBoundConstraints pcfCert.spaceID role.boundSpaceIDs <;>
    cases h5 : remoteAddrIsOk addr role.boundCIDRs <;>
    refine ⟨by simp [firstFailure], by simp⟩

/-- C3 counterexample: with IP matching enabled, an observed address that
does not equal the certificate IP, and a bound-CIDR list the address also
fails, validation stops at the IP check: the CIDR containment check is
never reached and the returned failure is the IP one — refuting that the
CIDR check runs regardless of the IP-match outcome. -/
theorem c3_cidr_not_always_evaluated :
    ¬ ConstraintCheck.cidr ∈
      (constraintChecksT
        { boundInstanceIDs := [], boundAppIDs := [], boundOrgIDs := [], boundSpaceIDs := []
          boundCIDRs := [⟨⟨1, 2, 3, 4⟩, 32⟩], policies := [], disableIPMatching := false
          ttl := 0, maxTTL := 0, period := 0 }
        sampleCert "10.0.0.9").2
    ∧ (constraintChecksT
        { boundInstanceIDs := [], boundAppIDs := [], boundOrgIDs := [], boundSpaceIDs := []
          boundCIDRs := [⟨⟨1, 2, 3, 4⟩, 32⟩], policies := [], disableIPMatching := false
          ttl := 0, maxTTL := 0, period := 0 }
        sampleCert "10.0.0.9").1 = Except.error "no matching IP address"
    ∧ remoteAddrIsOk "10.0.0.9" [⟨⟨1, 2, 3, 4⟩, 32⟩] = false := by
  refine ⟨by decide, by decide, by decide⟩

/-- C3 (amended): whenever the five checks before it all pass — the IP
match being passed or skipped, in either state of disableIPMatching — the
bound-CIDR containment check is evaluated; but a failure of any earlier
check aborts validation before the CIDR check is reached. -/
theorem c3_cidr_evaluated_when_reached (role : RoleEntry) (pcfCert : PCFCertificate)
    (addr : String)
    (hip : role.disableIPMatching = true ∨ matchesIPAddress addr pcfCert.ipAddress = true)
    (h1 : meetsBoundConstraints pcfCert.instanceID role.boundInstanceIDs = true)
    (h2 : meetsBoundConstraints pcfCert.appID role.boundAppIDs = true)
    (h3 : meetsBoundConstraints pcfCert.orgID role.boundOrgIDs = true)
    (h4 : meetsBoundConstraints pcfCert.spaceID role.boundSpaceIDs = true) :
    ConstraintCheck.cidr ∈ (constraintChecksT role pcfCert addr).2 := by
  simp only [constraintChecksT, h1, h2, h3, h4]
  rcases hip with hip | hip
  · simp [hip]
    cases h5 : remoteAddrIsOk addr role.boundCIDRs <;> simp
  · cases hd : role.disableIPMatching <;>
      simp [hip] <;>
      cases h5 : remoteAddrIsOk addr role.boundCIDRs <;> simp

/-- Witness for C3 (amended): with IP matching disabled and no bound
constraints, the CIDR check is reached on a concrete request. -/
theorem c3_cidr_evaluated_when_reached_witness :
    ConstraintCheck.cidr ∈
      (constraintChecksT
        { boundInstanceIDs := [], boundAppIDs := [], boundOrgIDs := [], boundSpaceIDs := []
          boundCIDRs := [⟨⟨1, 2, 3, 4⟩, 32⟩], policies := [], disableIPMatching := true
          ttl := 0, maxTTL := 0, period := 0 }
        sampleCert "10.0.0.9").2 :=
  c3_cidr_evaluated_when_reached _ sampleCert "10.0.0.9" (Or.inl rfl)
    (by decide) (by decide) (by decide) (by decide)

/-- C5: the directory reconciliation performs its lookups in the fixed
order service-instance, app, org, space, each stage failure (lookup error
or field mismatch) aborting immediately with no later lookup performed;
all four lookups are performed exactly when every stage passes; and the
app stage succeeds precisely when the returned record has GUID equal to
the claimed app ID, space GUID equal to the claimed space ID, and a
strictly positive live instance count. -/
theorem c5_directory_reconciliation (n : Configuration → Except String DirClient)
    (config : Configuration) (pcfCert : PCFCertificate) :
    (∀ e, n config = Except.error e → directoryChecksT n config pcfCert = (Except.error e, []))
    ∧ ∀ client, n config = Except.ok client →
        ((siStageOk client pcfCert = false →
            (directoryChecksT n config pcfCert).1 ≠ Except.ok ()
            ∧ (directoryChecksT n config pcfCert).2 = [DirLookup.serviceInstance])
        ∧ (siStageOk client pcfCert = true → appStageOk client pcfCert = false →
            (directoryChecksT n config pcfCert).1 ≠ Except.ok ()
            ∧ (directoryChecksT n config pcfCert).2 = [DirLookup.serviceInstance, DirLookup.app])
        ∧ (siStageOk client pcfCert = true → appStageOk client pcfCert = true →
            orgStageOk client pcfCert = false →
            (directoryChecksT n config pcfCert).1 ≠ Except.ok ()
            ∧ (directoryChecksT n config pcfCert).2 =
                [DirLookup.serviceInstance, DirLookup.app, DirLookup.org])
        ∧ (siStageOk client pcfCert = true → appStageOk client pcfCert = true →
            orgStageOk client pcfCert = true → spaceStageOk client pcfCert = false →
            (directoryChecksT n config pcfCert).1 ≠ Except.ok ()
            ∧ (directoryChecksT n config pcfCert).2 =
                [DirLookup.serviceInstance, DirLookup.app, DirLookup.org, DirLookup.space])
        ∧ (siStageOk client pcfCert = true → appStageOk client pcfCert = true →
            orgStageOk client pcfCert = true → spaceStageOk client pcfCert = true →
            directoryChecksT n config pcfCert =
              (Except.ok (),
               [DirLookup.serviceInstance, DirLookup.app, DirLookup.org, DirLookup.space]))
        ∧ (∀ appRec, client.appByGuid pcfCert.appID = Except.ok appRec →
            (appStageOk client pcfCert = true ↔
              appRec.guid = pcfCert.appID ∧ appRec.spaceGuid = pcfCert.spaceID
              ∧ 0 < appRec.instances))) := by
  constructor
  · intro e he
    simp [directoryChecksT, he]
  · intro client hc
    refine ⟨?_, ?_, ?_, ?_, ?_, ?_⟩
    · intro hsi
      cases hq : client.getServiceInstanceByGuid pcfCert.instanceID with
      | error e => simp [directoryChecksT, hc, hq]
      | ok si =>
        simp only [siStageOk, hq, Bool.and_eq_false_iff] at hsi
        simp only [directoryChecksT, hc, hq]
        rcases hsi with h | h <;> rw [beq_eq_false_iff_ne] at h
        · simp [h]
        · by_cases h1 : si.guid = pcfCert.instanceID <;> simp [h1, h]
    · intro hsi hap
      cases hq : client.getServiceInstanceByGuid pcfCert.instanceID with
      | error e => simp [siStageOk, hq] at hsi
      | ok si =>
        simp only [siStageOk, hq, Bool.and_eq_true, beq_iff_eq] at hsi
        simp only [directoryChecksT, hc, hq, hsi.1, hsi.2, ne_eq, not_true_eq_false, if_false]
        cases ha : client.appByGuid pcfCert.appID with
        | error e => simp [ha]
        | ok appRec =>
          simp only [appStageOk, ha, Bool.and_eq_false_iff] at hap
          simp only [ha]
          rcases hap with h | h
          · rcases h with h | h <;> rw [beq_eq_false_iff_ne] at h
            · simp [h]
            · by_cases h1 : appRec.guid = pcfCert.appID <;> simp [h1, h]
          · simp only [decide_eq_false_iff_not, not_lt] at h
            by_cases h1 : appRec.guid = pcfCert.appID <;>
              by_cases h2 : appRec.spaceGuid = pcfCert.spaceID <;>
              simp [h1, h2, h]
    · intro hsi hap hor
      cases hq : client.getServiceInstanceByGuid pcfCert.instanceID with
      | error e => simp [siStageOk, hq] at hsi
      | ok si =>
        simp only [siStageOk, hq, Bool.and_eq_true, beq_iff_eq] at hsi
        cases ha : client.appByGuid pcfCert.appID with
        | error e => simp [appStageOk, ha] at hap
        | ok appRec =>
          simp only [appStageOk, ha, Bool.and_eq_true, beq_iff_eq, decide_eq_true_eq] at hap
          simp only [directoryChecksT, hc, hq, hsi.1, hsi.2, ha, hap.1.1, hap.1.2, ne_eq,
            not_true_eq_false, if_false]
          have hinst : ¬ appRec.instances ≤ 0 := by omega
          simp only [hinst, if_false]
          cases ho : client.getOrgByGuid pcfCert.orgID with
          | error e => simp [ho]
          | ok org =>
            simp only [orgStageOk, ho, beq_eq_false_iff_ne] at hor
            simp [ho, hor]
    · intro hsi hap hor hsp
      cases hq : client.getServiceInstanceByGuid pcfCert.instanceID with
      | error e => simp [siStageOk, hq] at hsi
      | ok si =>
        simp only [siStageOk, hq, Bool.and_eq_true, beq_iff_eq] at hsi
        cases ha : client.appByGuid pcfCert.appID with
        | error e => simp [appStageOk, ha] at hap
        | ok appRec =>
          simp only [appStageOk, ha, Bool.and_eq_true, beq_iff_eq, decide_eq_true_eq] at hap
          cases ho : client.getOrgByGuid pcfCert.orgID with
          | error e => simp [orgStageOk, ho] at hor
          | ok org =>
            simp only [orgStageOk, ho, beq_iff_eq] at hor
            simp only [directoryChecksT, hc, hq, hsi.1, hsi.2, ha, hap.1.1, hap.1.2, ho, hor,
              ne_eq, not_true_eq_false, if_false]
            have hinst : ¬ appRec.instances ≤ 0 := by omega
            simp only [hinst, if_false]
            cases hs : client.getSpaceByGuid pcfCert.spaceID with
            | error e => simp [hs]
            | ok sp =>
              simp only [spaceStageOk, hs, Bool.and_eq_false_iff] at hsp
              simp only [hs]
              rcases hsp with h | h <;> rw [beq_eq_false_iff_ne] at h
              · simp [h]
              · by_cases h1 : sp.guid = pcfCert.spaceID <;> simp [h1, h]
    · intro hsi hap hor hsp
      cases hq : client.getServiceInstanceByGuid pcfCert.instanceID with
      | error e => simp [siStageOk, hq] at hsi
      | ok si =>
        simp only [siStageOk, hq, Bool.and_eq_true, beq_iff_eq] at hsi
        cases ha : client.appByGuid pcfCert.appID with
        | error e => simp [appStageOk, ha] at hap
        | ok appRec =>
          simp only [appStageOk, ha, Bool.and_eq_true, beq_iff_eq, decide_eq_true_eq] at hap
          cases ho : client.getOrgByGuid pcfCert.orgID with
          | error e => simp [orgStageOk, ho] at hor
          | ok org =>
            simp only [orgStageOk, ho, beq_iff_eq] at hor
            cases hs : client.getSpaceByGuid pcfCert.spaceID with
            | error e => simp [spaceStageOk, hs] at hsp
            | ok sp =>
              simp only [spaceStageOk, hs, Bool.and_eq_true, beq_iff_eq] at hsp
              simp only [directoryChecksT, hc, hq, hsi.1, hsi.2, ha, hap.1.1, hap.1.2,
                ho, hor, hs, hsp.1, hsp.2, ne_eq, not_true_eq_false, if_false]
              have hinst : ¬ appRec.instances ≤ 0 := by omega
              simp [hinst]
    · intro appRec ha
      simp [appStageOk, ha, and_assoc]

/-- Witness for C5: against a concrete directory agreeing with the
certificate, all four stages pass, exactly the four lookups run in order,
and reconciliation succeeds. -/
theorem c5_directory_reconciliation_witness :
    directoryChecksT (fun _ => Except.ok sampleClient) sampleConfig sampleCert =
      (Except.ok (),
       [DirLookup.serviceInstance, DirLookup.app, DirLookup.org, DirLookup.space]) := by
  have h := (c5_directory_reconciliation (fun _ => Except.ok sampleClient)
    sampleConfig sampleCert).2 sampleClient rfl
  exact h.2.2.2.2.1 (by decide) (by decide) (by decide) (by decide)

/-- A renewal environment whose configuration store fails, used by
concrete witnesses. -/
def brokenRenewEnv : RenewEnv :=
  { sampleRenewEnv with configStore := Except.error "storage unreachable" }

/-- C2: on the login path every failure of the attempt is redacted — the
caller receives exactly "authentication failed, failure ID [id]" with the
freshly generated correlation identifier, while the full error detail
appears only in the server-side log line — whereas on the renewal path
failures are returned to the caller with their full detail, never
redacted. -/
theorem c2_redaction_login_only (env : LoginEnv) (data : FieldData) (addr : String)
    (u e : String) (renv : RenewEnv) (auth : Auth) (raddr : String) :
    (attemptLogin env data addr = Except.error e →
      operationLoginUpdate env data addr (Except.ok u) =
        { resp := RespBody.errorResponse ("authentication failed, failure ID " ++ u)
          goErr := none
          logLine := some ("authentication failed, failure ID " ++ u ++ ": " ++ e) })
    ∧ (∀ a, attemptLogin env data addr = Except.ok a →
        operationLoginUpdate env data addr (Except.ok u) =
          { resp := RespBody.success a, goErr := none, logLine := none })
    ∧ (renv.configStore = Except.error e → pathLoginRenew renv auth raddr = Except.error e)
    ∧ (renv.configStore = Except.ok none →
        pathLoginRenew renv auth raddr =
          Except.error "no configuration is available for reaching the PCF API")
    ∧ (∀ config role,
        renv.configStore = Except.ok (some config) →
        getMeta auth.metadata "role" ≠ "" →
        renv.getRole (getMeta auth.metadata "role") = Except.ok (some role) →
        validate renv.newClient config role
          ((renv.newPCFCertificate
            (getMeta auth.metadata "instance_id") (getMeta auth.metadata "org_id")
            (getMeta auth.metadata "space_id") (getMeta auth.metadata "app_id")
            (getMeta auth.metadata "ip_address")).1) raddr = Except.error e →
        pathLoginRenew renv auth raddr = Except.error e) := by
  refine ⟨?_, ?_, ?_, ?_, ?_⟩
  · intro h
    simp [operationLoginUpdate, h]
  · intro a h
    simp [operationLoginUpdate, h]
  · intro h
    simp [pathLoginRenew, h]
  · intro h
    simp [pathLoginRenew, h]
  · intro config role hcs hrn hgr hv
    simp [pathLoginRenew, hcs, hrn, hgr, hv]

/-- Witness for C2: a concrete failing login is answered with only the
correlation identifier while the detail goes to the log, and a concrete
failing renewal returns the raw storage error to the caller. -/
theorem c2_redaction_login_only_witness :
    operationLoginUpdate sampleEnv
        { role := "", certificate := "PEM", signing_time := "t", signature := "s" }
        "10.0.0.5" (Except.ok "3b5e7a") =
      { resp := RespBody.errorResponse ("authentication failed, failure ID " ++ "3b5e7a")
        goErr := none
        logLine := some ("authentication failed, failure ID " ++ "3b5e7a" ++ ": " ++
          "\x27role-name\x27 is required") }
    ∧ pathLoginRenew brokenRenewEnv sampleAuth "10.0.0.5" =
        Except.error "storage unreachable" :=
  ⟨(c2_redaction_login_only sampleEnv
      { role := "", certificate := "PEM", signing_time := "t", signature := "s" }
      "10.0.0.5" "3b5e7a" "\x27role-name\x27 is required"
      brokenRenewEnv sampleAuth "10.0.0.5").1 (by decide),
   (c2_redaction_login_only sampleEnv
      { role := "", certificate := "PEM", signing_time := "t", signature := "s" }
      "10.0.0.5" "3b5e7a" "storage unreachable"
      brokenRenewEnv sampleAuth "10.0.0.5").2.2.1 rfl⟩

/-- C6: a successful renewal returns the persisted credential with TTL,
MaxTTL and Period replaced by the values of the current role definition, while
policies, metadata and every other field of the credential are left
exactly as issued. -/
theorem c6_renewal_refreshes_lease (renv : RenewEnv) (auth : Auth) (raddr : String)
    (config : Configuration) (role : RoleEntry)
    (hcs : renv.configStore = Except.ok (some config))
    (hrn : getMeta auth.metadata "role" ≠ "")
    (hgr : renv.getRole (getMeta auth.metadata "role") = Except.ok (some role))
    (hv : validate renv.newClient config role
      ((renv.newPCFCertificate
        (getMeta auth.metadata "instance_id") (getMeta auth.metadata "org_id")
        (getMeta auth.metadata "space_id") (getMeta auth.metadata "app_id")
        (getMeta auth.metadata "ip_address")).1) raddr = Except.ok ()) :
    pathLoginRenew renv auth raddr =
      Except.ok { auth with ttl := role.ttl, maxTTL := role.maxTTL, period := role.period }
    ∧ ∀ a, pathLoginRenew renv auth raddr = Except.ok a →
        a.ttl = role.ttl ∧ a.maxTTL = role.maxTTL ∧ a.period = role.period
        ∧ a.policies = auth.policies ∧ a.metadata = auth.metadata
        ∧ a.displayName = auth.displayName ∧ a.renewable = auth.renewable
        ∧ a.aliasName = auth.aliasName ∧ a.boundCIDRs = auth.boundCIDRs := by
  have h1 : pathLoginRenew renv auth raddr =
      Except.ok { auth with ttl := role.ttl, maxTTL := role.maxTTL, period := role.period } := by
    simp [pathLoginRenew, hcs, hrn, hgr, hv]
  refine ⟨h1, ?_⟩
  intro a ha
  rw [h1] at ha
  cases ha
  simp

/-- Witness for C6: renewing a credential issued with TTL 5 / MaxTTL 10 /
Period 1 against a role now carrying TTL 999 / MaxTTL 2000 / Period 7
yields the new lease values, with all other credential fields unchanged. -/
theorem c6_renewal_refreshes_lease_witness :
    pathLoginRenew sampleRenewEnv sampleAuth "10.0.0.5" =
      Except.ok { sampleAuth with
        ttl := sampleRole.ttl, maxTTL := sampleRole.maxTTL, period := sampleRole.period }
    ∧ sampleAuth.ttl ≠ sampleRole.ttl :=
  ⟨(c6_renewal_refreshes_lease sampleRenewEnv sampleAuth "10.0.0.5" sampleConfig sampleRole
      rfl (by decide) (by decide) (by decide)).1,
   by decide⟩

/-- C9: the error reported by reconstructing the identity from persisted
metadata is discarded without being checked — renewal behaves identically
for two reconstructors agreeing on the certificate component alone, and
even when the reconstruction reports an error, the outcome is decided
solely by running validation on the returned certificate value. -/
theorem c9_reconstruction_error_discarded
    (cs : Except String (Option Configuration))
    (gr : String → Except String (Option RoleEntry))
    (f g : String → String → String → String → String → PCFCertificate × Option String)
    (nc : Configuration → Except String DirClient)
    (auth : Auth) (raddr : String) :
    ((∀ i o s a ip, (f i o s a ip).1 = (g i o s a ip).1) →
      pathLoginRenew ⟨cs, gr, f, nc⟩ auth raddr = pathLoginRenew ⟨cs, gr, g, nc⟩ auth raddr)
    ∧ (∀ config role cert err2,
        cs = Except.ok (some config) →
        getMeta auth.metadata "role" ≠ "" →
        gr (getMeta auth.metadata "role") = Except.ok (some role) →
        f (getMeta auth.metadata "instance_id") (getMeta auth.metadata "org_id")
          (getMeta auth.metadata "space_id") (getMeta auth.metadata "app_id")
          (getMeta auth.metadata "ip_address") = (cert, some err2) →
        (validate nc config role cert raddr = Except.ok () →
          pathLoginRenew ⟨cs, gr, f, nc⟩ auth raddr =
            Except.ok { auth with ttl := role.ttl, maxTTL := role.maxTTL, period := role.period })
        ∧ ∀ e, validate nc config role cert raddr = Except.error e →
            pathLoginRenew ⟨cs, gr, f, nc⟩ auth raddr = Except.error e) := by
  constructor
  · intro hfg
    simp only [pathLoginRenew, hfg]
  · intro config role cert err2 hcs hrn hgr hf
    constructor
    · intro hv
      simp [pathLoginRenew, hcs, hrn, hgr, hf, hv]
    · intro e hv
      simp [pathLoginRenew, hcs, hrn, hgr, hf, hv]

/-- Witness for C9: a concrete renewal whose metadata reconstructor
reports an error still succeeds, because the error is discarded and the
returned certificate passes validation. -/
theorem c9_reconstruction_error_discarded_witness :
    pathLoginRenew sampleRenewEnv sampleAuth "10.0.0.5" =
      Except.ok { sampleAuth with
        ttl := sampleRole.ttl, maxTTL := sampleRole.maxTTL, period := sampleRole.period } :=
  ((c9_reconstruction_error_discarded sampleRenewEnv.configStore sampleRenewEnv.getRole
      sampleRenewEnv.newPCFCertificate sampleRenewEnv.newPCFCertificate
      sampleRenewEnv.newClient sampleAuth "10.0.0.5").2 sampleConfig sampleRole sampleCert
      "could not parse the IP address in the metadata" rfl (by decide) (by decide)
      (by decide)).1 (by decide)

/-- C10: the login handler never returns a Go-level error — every failure
becomes an error-response body — and when generating the correlation UUID
itself fails, that error is discarded too and the redacted message is
still returned, with an empty failure identifier. -/
theorem c10_login_handler_nil_error (env : LoginEnv) (data : FieldData) (addr : String)
    (uuidRes : Except String String) :
    (operationLoginUpdate env data addr uuidRes).goErr = none
    ∧ (∀ e ue, attemptLogin env data addr = Except.error e → uuidRes = Except.error ue →
        (operationLoginUpdate env data addr uuidRes).resp =
          RespBody.errorResponse ("authentication failed, failure ID " ++ "")
        ∧ (operationLoginUpdate env data addr uuidRes).logLine =
            some ("authentication failed, failure ID " ++ "" ++ ": " ++ e)) := by
  constructor
  · cases h : attemptLogin env data addr <;> simp [operationLoginUpdate, h]
  · intro e ue ha hu
    simp [operationLoginUpdate, ha, hu]

/-- Witness for C10: a concrete failing login whose UUID generation also
fails is still answered with the redacted message, carrying an empty
failure identifier, and the handler reports no Go-level error. -/
theorem c10_login_handler_nil_error_witness :
    (operationLoginUpdate sampleEnv
        { role := "", certificate := "PEM", signing_time := "t", signature := "s" }
        "10.0.0.5" (Except.error "entropy exhausted")).goErr = none
    ∧ (operationLoginUpdate sampleEnv
        { role := "", certificate := "PEM", signing_time := "t", signature := "s" }
        "10.0.0.5" (Except.error "entropy exhausted")).resp =
        RespBody.errorResponse ("authentication failed, failure ID " ++ "") :=
  ⟨(c10_login_handler_nil_error sampleEnv
      { role := "", certificate := "PEM", signing_time := "t", signature := "s" }
      "10.0.0.5" (Except.error "entropy exhausted")).1,
   ((c10_login_handler_nil_error sampleEnv
      { role := "", certificate := "PEM", signing_time := "t", signature := "s" }
      "10.0.0.5" (Except.error "entropy exhausted")).2
      "\x27role-name\x27 is required" "entropy exhausted" (by decide) rfl).1⟩

end PCFAuth
